import Mathlib

/-!
Shallow embedding of the REST-POSTGRES marketplace API.

The embedding follows the modular revision of the source (src/models/schemas.js,
src/utils/helpers.js and the per-resource routers for products, users, orders,
reviews and f2p-games).  SQL tables become Lean lists of rows, parameterized
statements become list operations on an explicit DB state, and each HTTP handler
becomes a function from the DB state and its parsed inputs to a status code, an
optional payload and the successor state.  JavaScript numbers are modelled as
exact rationals, with Math.round as the floor of x + 1/2 (ties toward positive
infinity).  Timestamp columns are not modelled; no claim concerns them.
-/

namespace Sha512

/-- The modulus 2^64 of SHA-512 words. -/
def w64 : Nat := 2 ^ 64

/-- Wrapping 64-bit addition. -/
def add64 (a b : Nat) : Nat := (a + b) % w64

/-- Right rotation of a 64-bit word. -/
def rotr (x n : Nat) : Nat := ((x >>> n) ||| (x <<< (64 - n))) % w64

/-- Bitwise complement within 64 bits. -/
def not64 (x : Nat) : Nat := x ^^^ (w64 - 1)

/-- Upper-case sigma-0 function of FIPS 180-4. -/
def bigSigma0 (x : Nat) : Nat := rotr x 28 ^^^ rotr x 34 ^^^ rotr x 39

/-- Upper-case sigma-1 function of FIPS 180-4. -/
def bigSigma1 (x : Nat) : Nat := rotr x 14 ^^^ rotr x 18 ^^^ rotr x 41

/-- Lower-case sigma-0 function of FIPS 180-4. -/
def smallSigma0 (x : Nat) : Nat := rotr x 1 ^^^ rotr x 8 ^^^ (x >>> 7)

/-- Lower-case sigma-1 function of FIPS 180-4. -/
def smallSigma1 (x : Nat) : Nat := rotr x 19 ^^^ rotr x 61 ^^^ (x >>> 6)

/-- Choice function of FIPS 180-4. -/
def ch (x y z : Nat) : Nat := (x &&& y) ^^^ (not64 x &&& z)

/-- Majority function of FIPS 180-4. -/
def maj (x y z : Nat) : Nat := (x &&& y) ^^^ (x &&& z) ^^^ (y &&& z)

/-- The first eighty primes.  FIPS 180-4 defines the SHA-512 constants as the
leading fractional bits of their square and cube roots, and we derive them from
that definition rather than transcribing the tables. -/
def first80Primes : List Nat :=
  [2, 3, 5, 7, 11, 13, 17, 19, 23, 29, 31, 37, 41, 43, 47, 53, 59, 61, 67, 71,
   73, 79, 83, 89, 97, 101, 103, 107, 109, 113, 127, 131, 137, 139, 149, 151,
   157, 163, 167, 173, 179, 181, 191, 193, 197, 199, 211, 223, 227, 229, 233,
   239, 241, 251, 257, 263, 269, 271, 277, 281, 283, 293, 307, 311, 313, 317,
   331, 337, 347, 349, 353, 359, 367, 373, 379, 383, 389, 397, 401, 409]

/-- Fueled binary search for the integer cube root. -/
def cbrtGo (n : Nat) : Nat → Nat → Nat → Nat
  | 0, lo, _ => lo
  | fuel + 1, lo, hi =>
    if hi ≤ lo + 1 then lo
    else
      let mid := (lo + hi) / 2
      if mid * mid * mid ≤ n then cbrtGo n fuel mid hi else cbrtGo n fuel lo mid

/-- Integer cube root: the largest x with x * x * x ≤ n, for n below 2^210. -/
def natCbrt (n : Nat) : Nat := cbrtGo n 210 0 (n + 1)

/-- Leading 64 fractional bits of the square root of p. -/
def fracSqrtBits (p : Nat) : Nat := Nat.sqrt (p * 2 ^ 128) % w64

/-- Leading 64 fractional bits of the cube root of p. -/
def fracCbrtBits (p : Nat) : Nat := natCbrt (p * 2 ^ 192) % w64

/-- SHA-512 initial hash value (FIPS 180-4 section 5.3.5). -/
def initialHash : List Nat := (first80Primes.take 8).map fracSqrtBits

/-- SHA-512 round constants (FIPS 180-4 section 4.2.3). -/
def roundConstants : List Nat := first80Primes.map fracCbrtBits

/-- Big-endian byte serialization of n, k bytes wide. -/
def beBytes (k : Nat) (n : Nat) : List Nat :=
  (List.range k).map (fun i => (n >>> (8 * (k - 1 - i))) % 256)

/-- SHA-512 padding: a single 1 bit, zeros, and the 128-bit big-endian bit
length, reaching a multiple of 128 bytes. -/
def pad (msg : List Nat) : List Nat :=
  let zeros := (112 + 128 - (msg.length + 1) % 128) % 128
  msg ++ 0x80 :: List.replicate zeros 0 ++ beBytes 16 (8 * msg.length)

/-- The first sixteen 64-bit words of a 128-byte block, big-endian. -/
def initialW (block : List Nat) : List Nat :=
  (List.range 16).map (fun t =>
    (List.range 8).foldl (fun acc j => acc * 256 + block.getD (8 * t + j) 0) 0)

/-- Extension of the message schedule by k further words. -/
def extendW (w : List Nat) : Nat → List Nat
  | 0 => w
  | k + 1 =>
    let t := w.length
    extendW (w ++ [add64 (add64 (smallSigma1 (w.getD (t - 2) 0)) (w.getD (t - 7) 0))
                         (add64 (smallSigma0 (w.getD (t - 15) 0)) (w.getD (t - 16) 0))]) k

/-- The 80-word SHA-512 message schedule of one block. -/
def messageSchedule (block : List Nat) : List Nat := extendW (initialW block) 64

/-- The eight working registers. -/
structure Regs where
  a : Nat
  b : Nat
  c : Nat
  d : Nat
  e : Nat
  f : Nat
  g : Nat
  h : Nat

/-- One SHA-512 round, consuming one round constant and one schedule word. -/
def roundStep (s : Regs) (kw : Nat × Nat) : Regs :=
  let t1 := add64 s.h (add64 (bigSigma1 s.e) (add64 (ch s.e s.f s.g) (add64 kw.1 kw.2)))
  let t2 := add64 (bigSigma0 s.a) (maj s.a s.b s.c)
  { a := add64 t1 t2, b := s.a, c := s.b, d := s.c,
    e := add64 s.d t1, f := s.e, g := s.f, h := s.g }

/-- Compression of one 128-byte block into the running hash state. -/
def compressBlock (st : List Nat) (block : List Nat) : List Nat :=
  let w := messageSchedule block
  let s0 : Regs :=
    { a := st.getD 0 0, b := st.getD 1 0, c := st.getD 2 0, d := st.getD 3 0,
      e := st.getD 4 0, f := st.getD 5 0, g := st.getD 6 0, h := st.getD 7 0 }
  let s := (roundConstants.zip w).foldl roundStep s0
  [add64 (st.getD 0 0) s.a, add64 (st.getD 1 0) s.b, add64 (st.getD 2 0) s.c,
   add64 (st.getD 3 0) s.d, add64 (st.getD 4 0) s.e, add64 (st.getD 5 0) s.f,
   add64 (st.getD 6 0) s.g, add64 (st.getD 7 0) s.h]

/-- Folding the compression function over count leading 128-byte blocks of l. -/
def foldBlocks (st : List Nat) (l : List Nat) : Nat → List Nat
  | 0 => st
  | c + 1 => foldBlocks (compressBlock st (l.take 128)) (l.drop 128) c

/-- SHA-512 digest (64 bytes) of a byte string. -/
def sha512 (msg : List Nat) : List Nat :=
  let padded := pad msg
  let st := foldBlocks initialHash padded (padded.length / 128)
  st.foldr (fun x acc => beBytes 8 x ++ acc) []

/-- Lowercase hexadecimal digit. -/
def hexDigit (n : Nat) : Char := if n < 10 then Char.ofNat (48 + n) else Char.ofNat (87 + n)

/-- Lowercase hexadecimal rendering of a byte string, as produced by
digest with the hex encoding. -/
def toHex (bytes : List Nat) : String :=
  String.mk (bytes.foldr (fun b acc => hexDigit (b / 16) :: hexDigit (b % 16) :: acc) [])

/-- UTF-8 encoding of one character. -/
def encodeChar (c : Char) : List Nat :=
  let n := c.toNat
  if n < 0x80 then [n]
  else if n < 0x800 then [0xC0 ||| (n >>> 6), 0x80 ||| (n &&& 0x3F)]
  else if n < 0x10000 then
    [0xE0 ||| (n >>> 12), 0x80 ||| ((n >>> 6) &&& 0x3F), 0x80 ||| (n &&& 0x3F)]
  else
    [0xF0 ||| (n >>> 18), 0x80 ||| ((n >>> 12) &&& 0x3F),
     0x80 ||| ((n >>> 6) &&& 0x3F), 0x80 ||| (n &&& 0x3F)]

/-- UTF-8 bytes of a string, the input representation used by update. -/
def utf8Bytes (s : String) : List Nat :=
  s.data.foldr (fun c acc => encodeChar c ++ acc) []

end Sha512

namespace Marketplace

/-- JavaScript Math.round: floor of x + 1/2, ties toward positive infinity
(Rat.floor is the floor function, see jsRound_eq_floor below). -/
def jsRound (x : ℚ) : ℤ := Rat.floor (x + 1 / 2)

/-- JavaScript Math.ceil as the negated floor of the negation, which is the
ceiling function (see jsCeil_eq_ceil below). -/
def jsCeil (x : ℚ) : ℤ := -Rat.floor (-x)

/-- A row of the products table: SERIAL id, name, about, price plus the two
supplementary derived columns total_score and reviews_ids. -/
structure Product where
  id : Nat
  name : String
  about : String
  price : ℚ
  total_score : ℚ := 0
  reviews_ids : List Nat := []
deriving Repr, DecidableEq

/-- A row of the users table (timestamps not modelled). -/
structure User where
  id : Nat
  username : String
  email : String
  password_hash : String
deriving Repr, DecidableEq

/-- A row of the orders table. -/
structure Order where
  id : Nat
  user_id : Nat
  product_ids : List Nat
  total : ℚ
  payment : Bool
deriving Repr, DecidableEq

/-- A row of the reviews table. -/
structure Review where
  id : Nat
  user_id : Nat
  product_id : Nat
  score : Nat
  content : String
deriving Repr, DecidableEq

/-- The relational store: the four tables plus the next value of each SERIAL
id sequence. -/
structure DB where
  products : List Product
  users : List User
  orders : List Order
  reviews : List Review
  nextProductId : Nat := 1
  nextUserId : Nat := 1
  nextOrderId : Nat := 1
  nextReviewId : Nat := 1
deriving Repr, DecidableEq

/-- Result of one handler invocation: HTTP status, the row payload of the
response (when the claims need it) and the successor store state. -/
structure HResult (α : Type) where
  status : Nat
  payload : Option α
  db : DB
deriving Repr, DecidableEq

/-- hashPassword from src/utils/helpers.js: the unsalted SHA-512 hex digest of
the password string. -/
def hashPassword (password : String) : String :=
  Sha512.toHex (Sha512.sha512 (Sha512.utf8Bytes password))

/-- calculateTotalWithVAT from src/utils/helpers.js: reduce over the ordered
product references, a reference whose product is not found contributing zero,
then apply the 20 percent VAT and round at the cent. -/
def calculateTotalWithVAT (productIds : List Nat) (products : List Product) : ℚ :=
  let subtotal := productIds.foldl
    (fun sum productId =>
      match products.find? (fun p => p.id == productId) with
      | some product => sum + product.price
      | none => sum + 0) 0
  (jsRound (subtotal * 1.2 * 100) : ℚ) / 100

/-- Result record of updateProductScore: the new store state plus the avgScore
and reviewCount values the helper returns. -/
structure ScoreResult where
  db : DB
  avgScore : ℚ
  reviewCount : Nat
deriving Repr, DecidableEq

/-- updateProductScore from src/utils/helpers.js: average the scores of the
reviews of the product (zero when there are none, with the SQL AVG returning
NULL), round at the second decimal, collect the review ids ordered by id
ascending, and persist both onto the product row. -/
def updateProductScore (db : DB) (productId : Nat) : ScoreResult :=
  let productReviews := db.reviews.filter (fun r => r.product_id == productId)
  let reviewCount := productReviews.length
  let avgScore : ℚ :=
    if reviewCount = 0 then 0
    else (jsRound ((productReviews.map (fun r => (r.score : ℚ))).sum / (reviewCount : ℚ) * 100) : ℚ) / 100
  let reviewIds := List.insertionSort (· ≤ ·) (productReviews.map (fun r => r.id))
  { db := { db with products := db.products.map (fun p =>
      if p.id == productId then { p with total_score := avgScore, reviews_ids := reviewIds } else p) },
    avgScore := avgScore,
    reviewCount := reviewCount }

/-- Body accepted by ProductSchema. -/
structure ProductBody where
  name : String
  about : String
  price : ℚ
deriving Repr, DecidableEq

/-- Constraints of ProductSchema from src/models/schemas.js. -/
def ProductSchemaValid (b : ProductBody) : Prop :=
  1 ≤ b.name.length ∧ 1 ≤ b.about.length ∧ 0 < b.price

/-- Body accepted by UserSchema. -/
structure UserBody where
  username : String
  email : String
  password : String
deriving Repr, DecidableEq

/-- Body accepted by the (identical) UserUpdateSchema and
UserPartialUpdateSchema; absent optional fields are none. -/
structure UserUpdateBody where
  username : Option String
  email : Option String
  password : Option String
deriving Repr, DecidableEq

/-- Body accepted by OrderSchema. -/
structure OrderBody where
  userId : Nat
  productIds : List Nat
deriving Repr, DecidableEq

/-- Constraints of OrderSchema from src/models/schemas.js. -/
def OrderSchemaValid (b : OrderBody) : Prop :=
  0 < b.userId ∧ (∀ pid ∈ b.productIds, 0 < pid) ∧ 1 ≤ b.productIds.length

/-- Body accepted by OrderUpdateSchema. -/
structure OrderUpdateBody where
  userId : Option Nat
  productIds : Option (List Nat)
  payment : Option Bool
deriving Repr, DecidableEq

/-- Body accepted by ReviewSchema. -/
structure ReviewBody where
  userId : Nat
  productId : Nat
  score : Nat
  content : String
deriving Repr, DecidableEq

/-- Constraints of ReviewSchema from src/models/schemas.js. -/
def ReviewSchemaValid (b : ReviewBody) : Prop :=
  0 < b.userId ∧ 0 < b.productId ∧ 1 ≤ b.score ∧ b.score ≤ 5 ∧
  1 ≤ b.content.length ∧ b.content.length ≤ 1000

/-- Body accepted by ReviewUpdateSchema: only score and content, both
optional. -/
structure ReviewUpdateBody where
  score : Option Nat
  content : Option String
deriving Repr, DecidableEq

/-- Constraints of ReviewUpdateSchema from src/models/schemas.js. -/
def ReviewUpdateSchemaValid (b : ReviewUpdateBody) : Prop :=
  (∀ s ∈ b.score, 1 ≤ s ∧ s ≤ 5) ∧ (∀ c ∈ b.content, 1 ≤ c.length ∧ c.length ≤ 1000)

/-- Pagination metadata block of every list endpoint. -/
structure Pagination where
  page : Int
  limit : Int
  total : Nat
  totalPages : Int
  hasNext : Bool
  hasPrev : Bool
deriving Repr, DecidableEq

/-- The JavaScript pattern parseInt(q) or default: the parsed value when it is
present and nonzero (NaN and 0 are falsy), the default otherwise.  none models
an absent or non-numeric query parameter. -/
def jsOrDefault (q : Option Int) (dflt : Int) : Int :=
  match q with
  | none => dflt
  | some v => if v == 0 then dflt else v

/-- Common shape of the four list endpoints: page and limit from the query with
defaults 1 and 10, OFFSET (page-1)*limit, LIMIT limit, a COUNT of the whole
table, totalPages by Math.ceil, and the two boolean flags.  rows is the full
table in the ORDER BY order of the endpoint; LIMIT and OFFSET are modelled by
take and drop, which agree with SQL on the non-negative arguments the claims
concern. -/
def listEndpoint {α : Type} (rows : List α) (pageQ limitQ : Option Int) :
    List α × Pagination :=
  let page := jsOrDefault pageQ 1
  let limit := jsOrDefault limitQ 10
  let offset := (page - 1) * limit
  let pageRows := (rows.drop offset.toNat).take limit.toNat
  let total := rows.length
  let totalPages : Int := jsCeil ((total : ℚ) / (limit : ℚ))
  (pageRows,
   { page := page, limit := limit, total := total, totalPages := totalPages,
     hasNext := decide (page < totalPages), hasPrev := decide (1 < page) })

/-- POST /products: insert the validated body with the SERIAL id; the handler
responds with res.send of the new row (status 200). -/
def createProduct (db : DB) (b : ProductBody) : HResult Product :=
  let product : Product :=
    { id := db.nextProductId, name := b.name, about := b.about, price := b.price }
  { status := 200, payload := some product,
    db := { db with products := db.products ++ [product],
                    nextProductId := db.nextProductId + 1 } }

/-- POST /users: hash the password, reject 409 when username or email is taken,
else insert. -/
def createUser (db : DB) (b : UserBody) : HResult User :=
  let passwordHash := hashPassword b.password
  let existingUser := db.users.filter (fun u => u.username == b.username || u.email == b.email)
  if existingUser.length > 0 then { status := 409, payload := none, db := db }
  else
    let newUser : User :=
      { id := db.nextUserId, username := b.username, email := b.email,
        password_hash := passwordHash }
    { status := 201, payload := some newUser,
      db := { db with users := db.users ++ [newUser], nextUserId := db.nextUserId + 1 } }

/-- The seven conditional UPDATE branches of the user update handlers, selected
by which of the validated fields are present (a validated present field is
always truthy because the schema forbids strings short enough to be empty). -/
def applyUserUpdate (b : UserUpdateBody) (u : User) : User :=
  match b.username, b.email, b.password with
  | some n, some e, some p =>
      { u with username := n, email := e, password_hash := hashPassword p }
  | some n, some e, none => { u with username := n, email := e }
  | some n, none, some p => { u with username := n, password_hash := hashPassword p }
  | none, some e, some p => { u with email := e, password_hash := hashPassword p }
  | some n, none, none => { u with username := n }
  | none, some e, none => { u with email := e }
  | none, none, some p => { u with password_hash := hashPassword p }
  | none, none, none => u

/-- PUT and PATCH /users/:id (the two handlers are verbatim duplicates):
existence check, then the uniqueness re-check excluding self when username or
email is present, then the at-least-one-field check, then the conditional
UPDATE. -/
def updateUser (db : DB) (id : Int) (b : UserUpdateBody) : Nat × DB :=
  match db.users.find? (fun u => (u.id : Int) == id) with
  | none => (404, db)
  | some _ =>
    let conflictUser := db.users.filter (fun u =>
      (b.username.elim false (fun n => u.username == n) ||
       b.email.elim false (fun e => u.email == e)) && (u.id : Int) != id)
    if (b.username.isSome || b.email.isSome) && conflictUser.length > 0 then (409, db)
    else if b.username.isNone && b.email.isNone && b.password.isNone then (400, db)
    else
      (200, { db with users := db.users.map (fun u =>
        if (u.id : Int) == id then applyUserUpdate b u else u) })

/-- DELETE /users/:id with RETURNING; the ON DELETE CASCADE constraints also
remove the orders and reviews owned by the user (no score recompute runs). -/
def deleteUser (db : DB) (id : Int) : HResult User :=
  match db.users.find? (fun u => (u.id : Int) == id) with
  | none => { status := 404, payload := none, db := db }
  | some deletedUser =>
    { status := 200, payload := some deletedUser,
      db := { db with users := db.users.filter (fun u => !((u.id : Int) == id)),
                      orders := db.orders.filter (fun o => !((o.user_id : Int) == id)),
                      reviews := db.reviews.filter (fun r => !((r.user_id : Int) == id)) } }

/-- DELETE /products/:id with RETURNING; the ON DELETE CASCADE constraint also
removes the reviews of the product. -/
def deleteProduct (db : DB) (id : Int) : HResult Product :=
  match db.products.find? (fun p => (p.id : Int) == id) with
  | none => { status := 404, payload := none, db := db }
  | some deletedProduct =>
    { status := 200, payload := some deletedProduct,
      db := { db with products := db.products.filter (fun p => !((p.id : Int) == id)),
                      reviews := db.reviews.filter (fun r => !((r.product_id : Int) == id)) } }

/-- POST /orders: check the user exists, fetch the products matching ANY of the
referenced ids and reject unless exactly as many rows as references came back,
compute the total with VAT, insert with payment FALSE. -/
def createOrder (db : DB) (b : OrderBody) : HResult Order :=
  match db.users.find? (fun u => u.id == b.userId) with
  | none => { status := 404, payload := none, db := db }
  | some _ =>
    let products := db.products.filter (fun p => b.productIds.contains p.id)
    if products.length != b.productIds.length then
      { status := 404, payload := none, db := db }
    else
      let total := calculateTotalWithVAT b.productIds products
      let newOrder : Order :=
        { id := db.nextOrderId, user_id := b.userId, product_ids := b.productIds,
          total := total, payment := false }
      { status := 201, payload := some newOrder,
        db := { db with orders := db.orders ++ [newOrder],
                        nextOrderId := db.nextOrderId + 1 } }

/-- The seven conditional UPDATE branches of the order update handlers; the
total column is rewritten exactly in the branches where productIds is
present. -/
def applyOrderUpdate (b : OrderUpdateBody) (newTotal : ℚ) (o : Order) : Order :=
  match b.userId, b.productIds, b.payment with
  | some uid, some pids, some pay =>
      { o with user_id := uid, product_ids := pids, total := newTotal, payment := pay }
  | some uid, some pids, none =>
      { o with user_id := uid, product_ids := pids, total := newTotal }
  | some uid, none, some pay => { o with user_id := uid, payment := pay }
  | none, some pids, some pay =>
      { o with product_ids := pids, total := newTotal, payment := pay }
  | some uid, none, none => { o with user_id := uid }
  | none, some pids, none => { o with product_ids := pids, total := newTotal }
  | none, none, some pay => { o with payment := pay }
  | none, none, none => o

/-- Final write step of the order update handlers.  When none of the three
fields is present, none of the seven UPDATE branches runs, updatedOrder stays
undefined, getOrderDetails dereferences it and throws, and the catch block maps
this to a 500 response with the row untouched. -/
def updateOrderWrite (db : DB) (id : Int) (b : OrderUpdateBody) (newTotal : ℚ) :
    Nat × DB :=
  if b.userId.isNone && b.productIds.isNone && b.payment.isNone then (500, db)
  else
    (200, { db with orders := db.orders.map (fun o =>
      if (o.id : Int) == id then applyOrderUpdate b newTotal o else o) })

/-- PUT and PATCH /orders/:id (the two handlers are verbatim duplicates):
existence check, then per-field referential checks, then the conditional
UPDATE with the total recomputed when productIds is present. -/
def updateOrder (db : DB) (id : Int) (b : OrderUpdateBody) : Nat × DB :=
  match db.orders.find? (fun o => (o.id : Int) == id) with
  | none => (404, db)
  | some existingOrder =>
    let userMissing :=
      match b.userId with
      | some uid => (db.users.find? (fun (u : User) => u.id == uid)).isNone
      | none => false
    if userMissing then (404, db)
    else
      match b.productIds with
      | some pids =>
        let products := db.products.filter (fun (p : Product) => pids.contains p.id)
        if products.length != pids.length then (404, db)
        else updateOrderWrite db id b (calculateTotalWithVAT pids products)
      | none => updateOrderWrite db id b existingOrder.total

/-- DELETE /orders/:id with RETURNING the deleted row. -/
def deleteOrder (db : DB) (id : Int) : HResult Order :=
  match db.orders.find? (fun o => (o.id : Int) == id) with
  | none => { status := 404, payload := none, db := db }
  | some deletedOrder =>
    { status := 200, payload := some deletedOrder,
      db := { db with orders := db.orders.filter (fun o => !((o.id : Int) == id)) } }

/-- POST /reviews: check user and product exist, reject 409 when the user
already reviewed the product, insert, then recompute the product score before
responding. -/
def createReview (db : DB) (b : ReviewBody) : HResult Review :=
  match db.users.find? (fun u => u.id == b.userId) with
  | none => { status := 404, payload := none, db := db }
  | some _ =>
    match db.products.find? (fun p => p.id == b.productId) with
    | none => { status := 404, payload := none, db := db }
    | some _ =>
      match db.reviews.find? (fun r => r.user_id == b.userId && r.product_id == b.productId) with
      | some _ => { status := 409, payload := none, db := db }
      | none =>
        let newReview : Review :=
          { id := db.nextReviewId, user_id := b.userId, product_id := b.productId,
            score := b.score, content := b.content }
        let db1 : DB :=
          { db with reviews := db.reviews ++ [newReview],
                    nextReviewId := db.nextReviewId + 1 }
        { status := 201, payload := some newReview,
          db := (updateProductScore db1 b.productId).db }

/-- The three conditional UPDATE branches of the review update handlers: only
score, content and updated_at are ever written. -/
def applyReviewUpdate (b : ReviewUpdateBody) (r : Review) : Review :=
  match b.score, b.content with
  | some s, some c => { r with score := s, content := c }
  | some s, none => { r with score := s }
  | none, some c => { r with content := c }
  | none, none => r

/-- PUT and PATCH /reviews/:id (the two handlers are verbatim duplicates):
existence check, at-least-one-field check, conditional UPDATE, then the
product score recompute keyed by the updated row. -/
def updateReview (db : DB) (id : Int) (b : ReviewUpdateBody) : Nat × DB :=
  match db.reviews.find? (fun r => (r.id : Int) == id) with
  | none => (404, db)
  | some _ =>
    if b.score.isNone && b.content.isNone then (400, db)
    else
      let db1 : DB := { db with reviews := db.reviews.map (fun r =>
        if (r.id : Int) == id then applyReviewUpdate b r else r) }
      match db1.reviews.find? (fun r => (r.id : Int) == id) with
      | some updatedReview => (200, (updateProductScore db1 updatedReview.product_id).db)
      | none => (500, db1)

/-- DELETE /reviews/:id: fetch the row (404 when absent), delete it, recompute
the product score, then run the detail SELECT on the already deleted id; its
empty result is what the response embeds as the review field. -/
def deleteReview (db : DB) (id : Int) : HResult Review :=
  match db.reviews.find? (fun r => (r.id : Int) == id) with
  | none => { status := 404, payload := none, db := db }
  | some reviewToDelete =>
    let db1 : DB := { db with reviews := db.reviews.filter (fun r => !((r.id : Int) == id)) }
    let db2 := (updateProductScore db1 reviewToDelete.product_id).db
    { status := 200, payload := db2.reviews.find? (fun r => (r.id : Int) == id), db := db2 }

/-- GET /products/:id, /users/:id, /orders/:id, /reviews/:id share this status
shape: 200 when the row exists, 404 otherwise (the embedded detail joins do not
affect the status for an existing row). -/
def getRowStatus (found : Bool) : Nat := if found then 200 else 404

/-- Postgres cast of a text path parameter to INTEGER: an optional sign
followed by at least one digit.  none models the invalid-input-syntax error the
store raises for non-numeric text (exotic numeric spellings accepted by
Postgres, such as surrounding blanks, are not needed by any claim). -/
def digitsVal (cs : List Char) : Option Nat :=
  if cs.isEmpty || !cs.all Char.isDigit then none
  else some (cs.foldl (fun acc c => acc * 10 + (c.toNat - 48)) 0)

/-- Postgres text-to-INTEGER cast, see digitsVal. -/
def pgIntCast (s : String) : Option Int :=
  match s.data with
  | '-' :: rest => (digitsVal rest).map (fun n => -(n : Int))
  | '+' :: rest => (digitsVal rest).map (fun n => (n : Int))
  | cs => (digitsVal cs).map (fun n => (n : Int))

/-- JavaScript Number coercion of a string, none modelling NaN: the empty
string coerces to 0, and optionally signed decimal digit strings with an
optional fraction coerce to their value (exponent forms and whitespace
trimming are not needed by any claim). -/
def decimalVal (cs : List Char) : Option ℚ :=
  let intPart := cs.takeWhile Char.isDigit
  let rest := cs.dropWhile Char.isDigit
  match rest with
  | [] => if intPart.isEmpty then none
          else some ((intPart.foldl (fun acc c => acc * 10 + (c.toNat - 48)) 0 : Nat) : ℚ)
  | '.' :: frac =>
    if frac.all Char.isDigit && !(intPart.isEmpty && frac.isEmpty) then
      some (((intPart.foldl (fun acc c => acc * 10 + (c.toNat - 48)) 0 : Nat) : ℚ) +
            ((frac.foldl (fun acc c => acc * 10 + (c.toNat - 48)) 0 : Nat) : ℚ) / (10 ^ frac.length : ℚ))
    else none
  | _ => none

/-- JavaScript Number coercion, see decimalVal. -/
def jsStringToNumber (s : String) : Option ℚ :=
  if s == "" then some 0
  else
    match s.data with
    | '-' :: rest => (decimalVal rest).map Neg.neg
    | '+' :: rest => decimalVal rest
    | cs => decimalVal cs

/-- GET /products/:id with the raw path parameter: the id text is bound
directly into WHERE id = ..., so non-numeric text makes the store raise a cast
error, which the catch block maps to 500. -/
def getProductRoute (db : DB) (idParam : String) : Nat :=
  match pgIntCast idParam with
  | none => 500
  | some id => getRowStatus (db.products.any (fun (p : Product) => (p.id : Int) == id))

/-- GET /users/:id with the raw path parameter, as getProductRoute. -/
def getUserRoute (db : DB) (idParam : String) : Nat :=
  match pgIntCast idParam with
  | none => 500
  | some id => getRowStatus (db.users.any (fun (u : User) => (u.id : Int) == id))

/-- GET /orders/:id with the raw path parameter, as getProductRoute. -/
def getOrderRoute (db : DB) (idParam : String) : Nat :=
  match pgIntCast idParam with
  | none => 500
  | some id => getRowStatus (db.orders.any (fun (o : Order) => (o.id : Int) == id))

/-- GET /reviews/:id with the raw path parameter, as getProductRoute. -/
def getReviewRoute (db : DB) (idParam : String) : Nat :=
  match pgIntCast idParam with
  | none => 500
  | some id => getRowStatus (db.reviews.any (fun (r : Review) => (r.id : Int) == id))

/-- DELETE /products/:id with the raw path parameter. -/
def deleteProductRoute (db : DB) (idParam : String) : HResult Product :=
  match pgIntCast idParam with
  | none => { status := 500, payload := none, db := db }
  | some id => deleteProduct db id

/-- DELETE /users/:id with the raw path parameter. -/
def deleteUserRoute (db : DB) (idParam : String) : HResult User :=
  match pgIntCast idParam with
  | none => { status := 500, payload := none, db := db }
  | some id => deleteUser db id

/-- DELETE /orders/:id with the raw path parameter. -/
def deleteOrderRoute (db : DB) (idParam : String) : HResult Order :=
  match pgIntCast idParam with
  | none => { status := 500, payload := none, db := db }
  | some id => deleteOrder db id

/-- DELETE /reviews/:id with the raw path parameter. -/
def deleteReviewRoute (db : DB) (idParam : String) : HResult Review :=
  match pgIntCast idParam with
  | none => { status := 500, payload := none, db := db }
  | some id => deleteReview db id

/-- PUT or PATCH /reviews/:id with the raw path parameter and the safeParse
outcome of the body (none models a body the schema rejects, answered 400
before any query runs). -/
def updateReviewRoute (db : DB) (idParam : String) (parsed : Option ReviewUpdateBody) :
    Nat × DB :=
  match parsed with
  | none => (400, db)
  | some b =>
    match pgIntCast idParam with
    | none => (500, db)
    | some id => updateReview db id b

/-- PUT or PATCH /users/:id with the raw path parameter, as
updateReviewRoute. -/
def updateUserRoute (db : DB) (idParam : String) (parsed : Option UserUpdateBody) :
    Nat × DB :=
  match parsed with
  | none => (400, db)
  | some b =>
    match pgIntCast idParam with
    | none => (500, db)
    | some id => updateUser db id b

/-- PUT or PATCH /orders/:id with the raw path parameter, as
updateReviewRoute. -/
def updateOrderRoute (db : DB) (idParam : String) (parsed : Option OrderUpdateBody) :
    Nat × DB :=
  match parsed with
  | none => (400, db)
  | some b =>
    match pgIntCast idParam with
    | none => (500, db)
    | some id => updateOrder db id b

/-- GET /f2p-games/:id: the only id route that validates the parameter, with
the isNaN guard answering 400 before the remote call; remoteStatus is the
status of the upstream catalog response for a well-formed id. -/
def getF2pGameRoute (idParam : String) (remoteStatus : Nat) : Nat :=
  if idParam == "" || (jsStringToNumber idParam).isNone then 400
  else if 200 ≤ remoteStatus && remoteStatus < 300 then 200
  else if remoteStatus == 404 then 404
  else 500

/-- Uniqueness of the SERIAL primary keys, maintained by the store. -/
def WellFormedDB (db : DB) : Prop :=
  (db.products.map Product.id).Nodup ∧ (db.users.map User.id).Nodup ∧
  (db.orders.map Order.id).Nodup ∧ (db.reviews.map Review.id).Nodup

/-- The at-most-one-review-per-user-and-product invariant. -/
def ReviewPairsUnique (db : DB) : Prop :=
  (db.reviews.map (fun r => (r.user_id, r.product_id))).Nodup

/-- Modelled from the spec (section 4.3): the tax-inclusive order total is the
sum over each referenced id of the matching price, zero when no product in the
fetched list matches, multiplied by 1.20 and rounded half-up at the cent
boundary. -/
def specOrderTotal (productIds : List Nat) (products : List Product) : ℚ :=
  let subtotal := (productIds.map (fun pid =>
    match products.find? (fun p => p.id == pid) with
    | some p => p.price
    | none => 0)).sum
  ((⌊subtotal * 1.2 * 100 + 1 / 2⌋ : ℤ) : ℚ) / 100

/-- Modelled from the spec (section 4.3): the arithmetic mean of the scores of
the reviews of the product, zero when it has none, rounded half-up at the
second decimal place. -/
def specProductScore (reviews : List Review) (productId : Nat) : ℚ :=
  let scores := (reviews.filter (fun r => r.product_id == productId)).map
    (fun r => (r.score : ℚ))
  if scores = [] then 0
  else ((⌊scores.sum / (scores.length : ℚ) * 100 + 1 / 2⌋ : ℤ) : ℚ) / 100


/-- Fixture store: two products priced 10.00 and 20.00 and two users. -/
def exDb0 : DB :=
  { products := [{ id := 1, name := "P1", about := "first product", price := 10 },
                 { id := 2, name := "P2", about := "second product", price := 20 }],
    users := [{ id := 1, username := "alice", email := "alice@mail.io", password_hash := "hashA" },
              { id := 2, username := "bob", email := "bob@mail.io", password_hash := "hashB" }],
    orders := [], reviews := [],
    nextProductId := 3, nextUserId := 3, nextOrderId := 1, nextReviewId := 1 }

/-- Fixture: exDb0 after user 1 reviews product 1 with score 4. -/
def exDb1 : DB :=
  (createReview exDb0 { userId := 1, productId := 1, score := 4, content := "fine" }).db

/-- Fixture: exDb1 after user 2 reviews product 1 with score 5. -/
def exDb2 : DB :=
  (createReview exDb1 { userId := 2, productId := 1, score := 5, content := "great" }).db

/-- Fixture: exDb0 after user 1 orders products 1 and 2. -/
def exOrderDb : DB :=
  (createOrder exDb0 { userId := 1, productIds := [1, 2] }).db

/-- Fixture: the product-1 row after the two fixture reviews. -/
def exProd1 : Product :=
  { id := 1, name := "P1", about := "first product", price := 10,
    total_score := 4.5, reviews_ids := [1, 2] }

/-- Helper: Rat.floor agrees with the floor function. -/
theorem ratFloor_eq_floor (q : ℚ) : Rat.floor q = ⌊q⌋ :=
  (Rat.floor_def' q).trans Rat.floor_def.symm

/-- Helper: jsRound is the floor of x + 1/2. -/
theorem jsRound_eq_floor (x : ℚ) : jsRound x = ⌊x + 1 / 2⌋ := by
  unfold jsRound; rw [ratFloor_eq_floor]

/-- Helper: jsCeil is the ceiling function. -/
theorem jsCeil_eq_ceil (x : ℚ) : jsCeil x = ⌈x⌉ := by
  unfold jsCeil
  rw [ratFloor_eq_floor, ← Int.ceil_neg, neg_neg]

/-- Helper: the reduce of calculateTotalWithVAT accumulates the mapped price
sum on top of its initial accumulator. -/
theorem foldl_vat_sum (products : List Product) (l : List Nat) (a : ℚ) :
    l.foldl
      (fun sum productId =>
        match products.find? (fun p => p.id == productId) with
        | some product => sum + product.price
        | none => sum + 0) a
    = a + (l.map (fun pid =>
        match products.find? (fun p => p.id == pid) with
        | some p => p.price
        | none => 0)).sum := by
  induction l generalizing a with
  | nil => simp
  | cons x xs ih =>
    simp only [List.foldl_cons, List.map_cons, List.sum_cons]
    rw [ih]
    cases products.find? (fun p => p.id == x) <;> ring

/-- C1: for every list of product ids and every list of fetched product
records, calculateTotalWithVAT equals the spec total: the sum over each
referenced id of the matching price (zero when no product matches), times
1.20, rounded half-up at the cent boundary; and two products priced 10.00 and
20.00 total 36.00. -/
theorem c1_order_total_refines_spec :
    (∀ (productIds : List Nat) (products : List Product),
        calculateTotalWithVAT productIds products = specOrderTotal productIds products) ∧
    calculateTotalWithVAT [1, 2] exDb0.products = 36 := by
  constructor
  · intro productIds products
    simp only [calculateTotalWithVAT, specOrderTotal, jsRound_eq_floor, foldl_vat_sum]
    norm_num
  · with_unfolding_all decide
/-- C7: evaluation at the failing input: deleting the existing review 1
succeeds (200) and removes the row, but the response payload carries no row
data because the detail SELECT runs after the DELETE (the code comment says
before); deletes of products, users and orders do return the deleted row, and
a missing review id yields 404. -/
theorem c7_delete_review_drops_payload :
    (deleteReview exDb2 1).status = 200 ∧
    (deleteReview exDb2 1).payload = none ∧
    ((deleteReview exDb2 1).db.reviews.all (fun r => !(r.id == 1))) = true ∧
    (deleteReview exDb2 99).status = 404 ∧
    (deleteProduct exDb0 2).payload =
      some { id := 2, name := "P2", about := "second product", price := 20 } ∧
    (deleteUser exDb0 2).payload =
      some { id := 2, username := "bob", email := "bob@mail.io", password_hash := "hashB" } ∧
    (deleteOrder exOrderDb 1).payload =
      some { id := 1, user_id := 1, product_ids := [1, 2], total := 36, payment := false } := by
  with_unfolding_all decide

/-- C8 counterexample: the non-numeric id "abc" on GET /products/:id produces
a 500 from the unhandled store cast error, not a 400- or 404-class failure as
claimed. -/
theorem c8_counterexample_malformed_id :
    getProductRoute exDb0 "abc" = 500 ∧
    getProductRoute exDb0 "abc" ≠ 400 ∧ getProductRoute exDb0 "abc" ≠ 404 := by
  with_unfolding_all decide

/-- C8 (amended): a non-numeric id path parameter makes every store-backed
get, update and delete handler answer 500 (the Postgres integer-cast error is
caught and mapped to the generic server error) with the store unchanged,
while the f2p-games get-by-id route alone validates the id first and answers
400. -/
theorem c8_malformed_id_amended (db : DB) (s : String) (h : pgIntCast s = none) :
    getProductRoute db s = 500 ∧ getUserRoute db s = 500 ∧
    getOrderRoute db s = 500 ∧ getReviewRoute db s = 500 ∧
    deleteProductRoute db s = { status := 500, payload := none, db := db } ∧
    deleteUserRoute db s = { status := 500, payload := none, db := db } ∧
    deleteOrderRoute db s = { status := 500, payload := none, db := db } ∧
    deleteReviewRoute db s = { status := 500, payload := none, db := db } ∧
    (∀ b, updateReviewRoute db s (some b) = (500, db)) ∧
    (∀ b, updateUserRoute db s (some b) = (500, db)) ∧
    (∀ b, updateOrderRoute db s (some b) = (500, db)) ∧
    (s ≠ "" → (jsStringToNumber s).isNone = true → ∀ remote, getF2pGameRoute s remote = 400) := by
  refine ⟨?_, ?_, ?_, ?_, ?_, ?_, ?_, ?_, ?_, ?_, ?_, ?_⟩
  · simp [getProductRoute, h]
  · simp [getUserRoute, h]
  · simp [getOrderRoute, h]
  · simp [getReviewRoute, h]
  · simp [deleteProductRoute, h]
  · simp [deleteUserRoute, h]
  · simp [deleteOrderRoute, h]
  · simp [deleteReviewRoute, h]
  · intro b; simp [updateReviewRoute, h]
  · intro b; simp [updateUserRoute, h]
  · intro b; simp [updateOrderRoute, h]
  · intro hne hnan remote
    simp [getF2pGameRoute, hnan, hne]

/-- C8 witness: the amended statement applied at the store fixture and the
parameter "abc". -/
theorem c8_malformed_id_witness :
    getUserRoute exDb0 "abc" = 500 ∧ getF2pGameRoute "abc" 200 = 400 := by
  have h := c8_malformed_id_amended exDb0 "abc" (by with_unfolding_all decide)
  exact ⟨h.2.1,
    h.2.2.2.2.2.2.2.2.2.2.2 (by decide) (by with_unfolding_all decide) 200⟩

/-- C6 counterexample: with order 1 present, the empty validated PUT and PATCH
body yields status 500 (the undefined updated row is dereferenced and the
thrown error caught), not the claimed 400-class no-data failure. -/
theorem c6_counterexample_empty_order_update :
    (updateOrder exOrderDb 1 { userId := none, productIds := none, payment := none }).1 = 500 ∧
    (updateOrder exOrderDb 1 { userId := none, productIds := none, payment := none }).1 ≠ 400 ∧
    (exOrderDb.orders.any (fun (o : Order) => (o.id : Int) == 1)) = true := by
  with_unfolding_all decide

/-- C6 (amended): a full or partial update whose validated body contains none
of the updatable fields leaves the stored row unchanged in every case; the
user and review handlers answer 400 (no data to update), while the order
handlers, which lack the at-least-one-field check, answer 500. -/
theorem c6_empty_update_amended (db : DB) (id : Int) :
    ((db.users.any (fun (u : User) => (u.id : Int) == id)) = true →
      updateUser db id { username := none, email := none, password := none } = (400, db)) ∧
    ((db.reviews.any (fun (r : Review) => (r.id : Int) == id)) = true →
      updateReview db id { score := none, content := none } = (400, db)) ∧
    ((db.orders.any (fun (o : Order) => (o.id : Int) == id)) = true →
      updateOrder db id { userId := none, productIds := none, payment := none } = (500, db)) := by
  refine ⟨?_, ?_, ?_⟩
  · intro h
    have hs : (db.users.find? (fun u => (u.id : Int) == id)).isSome := by
      rw [List.find?_isSome]; simpa using h
    obtain ⟨u, hu⟩ := Option.isSome_iff_exists.mp hs
    simp [updateUser, hu]
  · intro h
    have hs : (db.reviews.find? (fun r => (r.id : Int) == id)).isSome := by
      rw [List.find?_isSome]; simpa using h
    obtain ⟨r, hr⟩ := Option.isSome_iff_exists.mp hs
    simp [updateReview, hr]
  · intro h
    have hs : (db.orders.find? (fun o => (o.id : Int) == id)).isSome := by
      rw [List.find?_isSome]; simpa using h
    obtain ⟨o, ho⟩ := Option.isSome_iff_exists.mp hs
    simp [updateOrder, updateOrderWrite, ho]

/-- C6 witness: the amended statement applied at the fixtures. -/
theorem c6_empty_update_witness :
    updateUser exDb0 1 { username := none, email := none, password := none } = (400, exDb0) ∧
    updateReview exDb2 1 { score := none, content := none } = (400, exDb2) ∧
    updateOrder exOrderDb 1 { userId := none, productIds := none, payment := none } = (500, exOrderDb) :=
  ⟨(c6_empty_update_amended exDb0 1).1 (by with_unfolding_all decide),
   (c6_empty_update_amended exDb2 1).2.1 (by with_unfolding_all decide),
   (c6_empty_update_amended exOrderDb 1).2.2 (by with_unfolding_all decide)⟩

/-- Helper: with distinct stored product ids, the rows matching ANY of the
referenced ids are exactly as many as the references when the references are
distinct and each one has a matching row. -/
theorem filter_contains_length_eq (products : List Product) (pids : List Nat)
    (hwf : (products.map Product.id).Nodup) (hnodup : pids.Nodup)
    (hall : ∀ pid ∈ pids, ∃ p ∈ products, p.id = pid) :
    (products.filter (fun p => pids.contains p.id)).length = pids.length := by
  have hsub : List.Sublist (products.filter (fun p => pids.contains p.id)) products :=
    List.filter_sublist products
  have hnd : ((products.filter (fun p => pids.contains p.id)).map Product.id).Nodup :=
    hwf.sublist (hsub.map Product.id)
  have hsubset : ((products.filter (fun p => pids.contains p.id)).map Product.id) ⊆ pids := by
    intro x hx
    obtain ⟨p, hp, rfl⟩ := List.mem_map.mp hx
    have := List.of_mem_filter hp
    simpa using this
  have h1 : ((products.filter (fun p => pids.contains p.id)).map Product.id).length ≤
      pids.length := (hnd.subperm hsubset).length_le
  have hsubset2 : pids ⊆ ((products.filter (fun p => pids.contains p.id)).map Product.id) := by
    intro pid hpid
    obtain ⟨p, hp, rfl⟩ := hall pid hpid
    refine List.mem_map.mpr ⟨p, ?_, rfl⟩
    refine List.mem_filter.mpr ⟨hp, ?_⟩
    simpa using hpid
  have h2 : pids.length ≤
      ((products.filter (fun p => pids.contains p.id)).map Product.id).length :=
    (hnodup.subperm hsubset2).length_le
  have := Nat.le_antisymm h1 h2
  simpa using this

/-- Helper: when some referenced id matches no stored row, fewer rows than
references come back. -/
theorem filter_contains_length_lt (products : List Product) (pids : List Nat)
    (hwf : (products.map Product.id).Nodup)
    (pid0 : Nat) (hmem : pid0 ∈ pids) (hmiss : ∀ p ∈ products, p.id ≠ pid0) :
    (products.filter (fun p => pids.contains p.id)).length < pids.length := by
  have hsub : List.Sublist (products.filter (fun p => pids.contains p.id)) products :=
    List.filter_sublist products
  have hnd : ((products.filter (fun p => pids.contains p.id)).map Product.id).Nodup :=
    hwf.sublist (hsub.map Product.id)
  have hsubset : ((products.filter (fun p => pids.contains p.id)).map Product.id) ⊆
      pids.erase pid0 := by
    intro x hx
    obtain ⟨p, hp, rfl⟩ := List.mem_map.mp hx
    have hmemp : p ∈ products := List.mem_of_mem_filter hp
    have hpid : p.id ∈ pids := by simpa using List.of_mem_filter hp
    exact List.mem_erase_of_ne (hmiss p hmemp) |>.mpr hpid
  have h1 : ((products.filter (fun p => pids.contains p.id)).map Product.id).length ≤
      (pids.erase pid0).length := (hnd.subperm hsubset).length_le
  have h2 : (pids.erase pid0).length = pids.length - 1 := List.length_erase_of_mem hmem
  have h3 : 0 < pids.length := List.length_pos.mpr (List.ne_nil_of_mem hmem)
  simp only [List.length_map] at h1
  omega

/-- C5 counterexample: user 1 and product 1 exist and every id referenced by
the body [1, 1] references an existing product, yet order creation answers
404 and creates nothing, because the ANY query returns one row against two
references. -/
theorem c5_counterexample_duplicate_refs :
    (∃ u ∈ exDb0.users, u.id = 1) ∧
    (([1, 1] : List Nat) ≠ []) ∧
    (∀ pid ∈ ([1, 1] : List Nat), ∃ p ∈ exDb0.products, p.id = pid) ∧
    (createOrder exDb0 { userId := 1, productIds := [1, 1] }).status = 404 ∧
    (createOrder exDb0 { userId := 1, productIds := [1, 1] }).db = exDb0 := by
  with_unfolding_all decide

/-- C5 (amended): order creation answers 404 and leaves the store unchanged
when the user is missing or some referenced product is missing; and whenever
the user exists and the product ids are pairwise distinct, non-empty and each
references an existing product, the order is created (201) with its total
computed server-side by calculateTotalWithVAT over the fetched rows. -/
theorem c5_order_creation_amended (db : DB) (b : OrderBody)
    (hwf : (db.products.map Product.id).Nodup) :
    ((∀ u ∈ db.users, u.id ≠ b.userId) →
      createOrder db b = { status := 404, payload := none, db := db }) ∧
    ((∃ u ∈ db.users, u.id = b.userId) →
     (∃ pid ∈ b.productIds, ∀ p ∈ db.products, p.id ≠ pid) →
      createOrder db b = { status := 404, payload := none, db := db }) ∧
    ((∃ u ∈ db.users, u.id = b.userId) → b.productIds ≠ [] → b.productIds.Nodup →
     (∀ pid ∈ b.productIds, ∃ p ∈ db.products, p.id = pid) →
      (createOrder db b).status = 201 ∧
      (createOrder db b).payload = some
        { id := db.nextOrderId, user_id := b.userId, product_ids := b.productIds,
          total := calculateTotalWithVAT b.productIds
            (db.products.filter (fun p => b.productIds.contains p.id)),
          payment := false } ∧
      (createOrder db b).db.orders = db.orders ++
        [{ id := db.nextOrderId, user_id := b.userId, product_ids := b.productIds,
           total := calculateTotalWithVAT b.productIds
             (db.products.filter (fun p => b.productIds.contains p.id)),
           payment := false }]) := by
  refine ⟨?_, ?_, ?_⟩
  · intro h
    have hnone : db.users.find? (fun u => u.id == b.userId) = none :=
      List.find?_eq_none.mpr (fun u hu => by simpa using h u hu)
    simp [createOrder, hnone]
  · intro h1 h2
    have hs : (db.users.find? (fun u => u.id == b.userId)).isSome := by
      rw [List.find?_isSome]; simpa using h1
    obtain ⟨u, hu⟩ := Option.isSome_iff_exists.mp hs
    obtain ⟨pid0, hpid0, hmiss⟩ := h2
    have hlt := filter_contains_length_lt db.products b.productIds hwf pid0 hpid0 hmiss
    simp [createOrder, hu]
    simp at hlt
    omega
  · intro h1 _hne hnodup hall
    have hs : (db.users.find? (fun u => u.id == b.userId)).isSome := by
      rw [List.find?_isSome]; simpa using h1
    obtain ⟨u, hu⟩ := Option.isSome_iff_exists.mp hs
    have heq := filter_contains_length_eq db.products b.productIds hwf hnodup hall
    simp at heq
    refine ⟨?_, ?_, ?_⟩ <;> simp [createOrder, hu, heq]

/-- C5 witness: the amended statement applied at the fixture store with the
distinct references [1, 2] and at a missing user. -/
theorem c5_order_creation_witness :
    (createOrder exDb0 { userId := 1, productIds := [1, 2] }).status = 201 ∧
    createOrder exDb0 { userId := 3, productIds := [1] } =
      { status := 404, payload := none, db := exDb0 } := by
  refine ⟨((c5_order_creation_amended exDb0 { userId := 1, productIds := [1, 2] }
      (by decide)).2.2 (by decide) (by decide) (by decide) (by decide)).1,
    (c5_order_creation_amended exDb0 { userId := 3, productIds := [1] }
      (by decide)).1 (by decide)⟩

/-- Helper: updateProductScore rewrites only the products table. -/
theorem updateProductScore_reviews (db : DB) (pid : Nat) :
    (updateProductScore db pid).db.reviews = db.reviews := rfl

/-- Helper: the conditional review UPDATE never writes the id column. -/
theorem applyReviewUpdate_id (b : ReviewUpdateBody) (r : Review) :
    (applyReviewUpdate b r).id = r.id := by
  unfold applyReviewUpdate
  cases b.score <;> cases b.content <;> rfl

/-- Helper: the conditional review UPDATE never writes the user_id column. -/
theorem applyReviewUpdate_user_id (b : ReviewUpdateBody) (r : Review) :
    (applyReviewUpdate b r).user_id = r.user_id := by
  unfold applyReviewUpdate
  cases b.score <;> cases b.content <;> rfl

/-- Helper: the conditional review UPDATE never writes the product_id column. -/
theorem applyReviewUpdate_product_id (b : ReviewUpdateBody) (r : Review) :
    (applyReviewUpdate b r).product_id = r.product_id := by
  unfold applyReviewUpdate
  cases b.score <;> cases b.content <;> rfl

/-- Helper: the review rows after a review update carry the same id, user and
product columns, in the same order. -/
theorem updateReview_triples (db : DB) (id : Int) (b : ReviewUpdateBody) :
    ((updateReview db id b).2).reviews.map (fun r => (r.id, r.user_id, r.product_id)) =
      db.reviews.map (fun r => (r.id, r.user_id, r.product_id)) := by
  have hmap : ∀ l : List Review,
      (l.map (fun r => if (r.id : Int) == id then applyReviewUpdate b r else r)).map
        (fun r => (r.id, r.user_id, r.product_id)) =
      l.map (fun r => (r.id, r.user_id, r.product_id)) := by
    intro l
    rw [List.map_map]
    refine List.map_congr_left ?_
    intro r _
    by_cases hr : ((r.id : Int) == id) = true <;>
      simp [hr, Function.comp, applyReviewUpdate_id, applyReviewUpdate_user_id,
            applyReviewUpdate_product_id]
  unfold updateReview
  cases hf : db.reviews.find? (fun r => (r.id : Int) == id) with
  | none => rfl
  | some r0 =>
    by_cases hnd : b.score.isNone && b.content.isNone
    · simp [hnd]
    · simp only [hnd, Bool.false_eq_true, if_false]
      cases hf2 : (db.reviews.map (fun r =>
          if (r.id : Int) == id then applyReviewUpdate b r else r)).find?
            (fun r => (r.id : Int) == id) with
      | none => simpa using hmap db.reviews
      | some ur => simpa [updateProductScore_reviews] using hmap db.reviews

/-- Helper: a review update preserves the user and product pair list, hence
the pair invariant. -/
theorem updateReview_pairs (db : DB) (id : Int) (b : ReviewUpdateBody)
    (h : ReviewPairsUnique db) : ReviewPairsUnique (updateReview db id b).2 := by
  unfold ReviewPairsUnique at h ⊢
  have h1 := updateReview_triples db id b
  have h2 := congrArg (List.map (fun t : Nat × Nat × Nat => (t.2.1, t.2.2))) h1
  simp only [List.map_map] at h2
  have h3 : ((updateReview db id b).2).reviews.map (fun r => (r.user_id, r.product_id)) =
      db.reviews.map (fun r => (r.user_id, r.product_id)) := by
    simpa [Function.comp] using h2
  rw [h3]
  exact h

/-- Helper: product creation does not touch the reviews table. -/
theorem createProduct_reviews (db : DB) (b : ProductBody) :
    (createProduct db b).db.reviews = db.reviews := rfl

/-- Helper: user creation does not touch the reviews table. -/
theorem createUser_reviews (db : DB) (b : UserBody) :
    (createUser db b).db.reviews = db.reviews := by
  simp only [createUser]
  split <;> rfl

/-- Helper: a user update does not touch the reviews table. -/
theorem updateUser_reviews (db : DB) (id : Int) (b : UserUpdateBody) :
    ((updateUser db id b).2).reviews = db.reviews := by
  simp only [updateUser]
  repeat' first | rfl | split

/-- Helper: order creation does not touch the reviews table. -/
theorem createOrder_reviews (db : DB) (b : OrderBody) :
    (createOrder db b).db.reviews = db.reviews := by
  simp only [createOrder]
  repeat' first | rfl | split

/-- Helper: an order update does not touch the reviews table. -/
theorem updateOrder_reviews (db : DB) (id : Int) (b : OrderUpdateBody) :
    ((updateOrder db id b).2).reviews = db.reviews := by
  simp only [updateOrder, updateOrderWrite]
  repeat' first | rfl | split

/-- Helper: an order delete does not touch the reviews table. -/
theorem deleteOrder_reviews (db : DB) (id : Int) :
    (deleteOrder db id).db.reviews = db.reviews := by
  simp only [deleteOrder]
  split <;> rfl

/-- C4: creating a second review for a user and product pair that already has
one fails with 409 and leaves the store (hence the product's aggregate score
and review-id list) unchanged; and every handler of the API preserves the
at-most-one-review-per-user-and-product invariant. -/
theorem c4_review_conflict (db : DB) (b : ReviewBody) :
    ((∃ u ∈ db.users, u.id = b.userId) → (∃ p ∈ db.products, p.id = b.productId) →
     (∃ r ∈ db.reviews, r.user_id = b.userId ∧ r.product_id = b.productId) →
     createReview db b = { status := 409, payload := none, db := db }) ∧
    (ReviewPairsUnique db →
      ReviewPairsUnique (createReview db b).db ∧
      (∀ id bu, ReviewPairsUnique (updateReview db id bu).2) ∧
      (∀ id, ReviewPairsUnique (deleteReview db id).db) ∧
      (∀ id, ReviewPairsUnique (deleteUser db id).db) ∧
      (∀ id, ReviewPairsUnique (deleteProduct db id).db) ∧
      (∀ pb, ReviewPairsUnique (createProduct db pb).db) ∧
      (∀ ub, ReviewPairsUnique (createUser db ub).db) ∧
      (∀ id ub, ReviewPairsUnique (updateUser db id ub).2) ∧
      (∀ ob, ReviewPairsUnique (createOrder db ob).db) ∧
      (∀ id ob, ReviewPairsUnique (updateOrder db id ob).2) ∧
      (∀ id, ReviewPairsUnique (deleteOrder db id).db)) := by
  constructor
  · intro hu hp hr
    have hsu : (db.users.find? (fun u => u.id == b.userId)).isSome := by
      rw [List.find?_isSome]; simpa using hu
    obtain ⟨u, hfu⟩ := Option.isSome_iff_exists.mp hsu
    have hsp : (db.products.find? (fun p => p.id == b.productId)).isSome := by
      rw [List.find?_isSome]; simpa using hp
    obtain ⟨p, hfp⟩ := Option.isSome_iff_exists.mp hsp
    have hsr : (db.reviews.find?
        (fun r => r.user_id == b.userId && r.product_id == b.productId)).isSome := by
      rw [List.find?_isSome]
      obtain ⟨r, hrm, h1, h2⟩ := hr
      exact ⟨r, hrm, by simp [h1, h2]⟩
    obtain ⟨r0, hfr⟩ := Option.isSome_iff_exists.mp hsr
    simp [createReview, hfu, hfp, hfr]
  · intro h
    refine ⟨?_, fun id bu => updateReview_pairs db id bu h, ?_, ?_, ?_,
      fun pb => h, ?_, ?_, ?_, ?_, ?_⟩
    · -- createReview preserves the invariant
      cases hcu : db.users.find? (fun u => u.id == b.userId) with
      | none => simp only [createReview, hcu]; exact h
      | some u =>
        cases hcp : db.products.find? (fun p => p.id == b.productId) with
        | none => simp only [createReview, hcu, hcp]; exact h
        | some p =>
          cases hcr : db.reviews.find?
              (fun r => r.user_id == b.userId && r.product_id == b.productId) with
          | some r0 => simp only [createReview, hcu, hcp, hcr]; exact h
          | none =>
            unfold ReviewPairsUnique at h ⊢
            simp only [createReview, hcu, hcp, hcr, updateProductScore_reviews]
            rw [List.map_append, List.nodup_append]
            refine ⟨h, by simp, ?_⟩
            intro x hx hx2
            obtain ⟨r, hrm, hpair⟩ := List.mem_map.mp hx
            have hx2' : x = (b.userId, b.productId) := by simpa using hx2
            rw [hx2'] at hpair
            rw [Prod.ext_iff] at hpair
            simp only [] at hpair
            have hnone := List.find?_eq_none.mp hcr r hrm
            simp at hnone
            exact hnone hpair.1 hpair.2
    · -- deleteReview preserves the invariant
      intro id
      cases hf : db.reviews.find? (fun r => (r.id : Int) == id) with
      | none => simp only [deleteReview, hf]; exact h
      | some r0 =>
        unfold ReviewPairsUnique at h ⊢
        simp only [deleteReview, hf, updateProductScore_reviews]
        exact List.Nodup.sublist ((List.filter_sublist _).map _) h
    · -- deleteUser cascades reviews by a filter
      intro id
      cases hf : db.users.find? (fun u => (u.id : Int) == id) with
      | none => simp only [deleteUser, hf]; exact h
      | some u0 =>
        unfold ReviewPairsUnique at h ⊢
        simp only [deleteUser, hf]
        exact List.Nodup.sublist ((List.filter_sublist _).map _) h
    · -- deleteProduct cascades reviews by a filter
      intro id
      cases hf : db.products.find? (fun p => (p.id : Int) == id) with
      | none => simp only [deleteProduct, hf]; exact h
      | some p0 =>
        unfold ReviewPairsUnique at h ⊢
        simp only [deleteProduct, hf]
        exact List.Nodup.sublist ((List.filter_sublist _).map _) h
    · intro ub
      unfold ReviewPairsUnique at h ⊢
      rw [createUser_reviews]
      exact h
    · intro id ub
      unfold ReviewPairsUnique at h ⊢
      rw [updateUser_reviews]
      exact h
    · intro ob
      unfold ReviewPairsUnique at h ⊢
      rw [createOrder_reviews]
      exact h
    · intro id ob
      unfold ReviewPairsUnique at h ⊢
      rw [updateOrder_reviews]
      exact h
    · intro id
      unfold ReviewPairsUnique at h ⊢
      rw [deleteOrder_reviews]
      exact h

/-- C4 witness: the conflict statement applied at the fixture store where user
1 already reviewed product 1, and one invariant-preservation instance. -/
theorem c4_review_conflict_witness :
    createReview exDb2 { userId := 1, productId := 1, score := 3, content := "again" } =
      { status := 409, payload := none, db := exDb2 } ∧
    ReviewPairsUnique (createReview exDb2
      { userId := 2, productId := 2, score := 5, content := "nice" }).db := by
  have h1 := c4_review_conflict exDb2 { userId := 1, productId := 1, score := 3, content := "again" }
  have h2 := c4_review_conflict exDb2 { userId := 2, productId := 2, score := 5, content := "nice" }
  refine ⟨h1.1 (by with_unfolding_all decide) (by with_unfolding_all decide)
      (by with_unfolding_all decide),
    (h2.2 (by unfold ReviewPairsUnique; with_unfolding_all decide)).1⟩

/-- C9: every full or partial review update preserves each review row's
user_id and product_id (the update schema admits only score and content and
every UPDATE branch writes only those columns), and therefore preserves the
at-most-one-review-per-user-and-product invariant. -/
theorem c9_review_update_frame (db : DB) (id : Int) (b : ReviewUpdateBody) :
    ((updateReview db id b).2).reviews.map (fun r => (r.id, r.user_id, r.product_id)) =
      db.reviews.map (fun r => (r.id, r.user_id, r.product_id)) ∧
    (ReviewPairsUnique db → ReviewPairsUnique (updateReview db id b).2) := by
  exact ⟨updateReview_triples db id b, updateReview_pairs db id b⟩

/-- C9 witness: the frame statement applied at the fixture store and a
score-only update of review 1. -/
theorem c9_review_update_frame_witness :
    ((updateReview exDb2 1 { score := some 2, content := none }).2).reviews.map
      (fun r => (r.id, r.user_id, r.product_id)) =
      exDb2.reviews.map (fun r => (r.id, r.user_id, r.product_id)) ∧
    ReviewPairsUnique (updateReview exDb2 1 { score := some 2, content := none }).2 := by
  have h := c9_review_update_frame exDb2 1 { score := some 2, content := none }
  exact ⟨h.1, h.2 (by unfold ReviewPairsUnique; with_unfolding_all decide)⟩

/-- Helper: the avgScore computed by updateProductScore is the spec-side
product score over the same review table. -/
theorem updateProductScore_avg (db : DB) (pid : Nat) :
    (updateProductScore db pid).avgScore = specProductScore db.reviews pid := by
  unfold updateProductScore specProductScore
  simp only [jsRound_eq_floor]
  by_cases hc : (db.reviews.filter (fun r => r.product_id == pid)).length = 0
  · have hnil : db.reviews.filter (fun r => r.product_id == pid) = [] :=
      List.length_eq_zero.mp hc
    simp [hc, hnil]
  · have hnil : ¬ (db.reviews.filter (fun r => r.product_id == pid)).map
        (fun r => (r.score : ℚ)) = [] := by
      simp only [List.map_eq_nil_iff]
      intro hn
      exact hc (by rw [hn]; rfl)
    simp only [hc, if_false, hnil, List.length_map]

/-- Helper: after updateProductScore, every product row carrying the target id
holds the spec-side score and the ascending list of the ids of the reviews of
that product. -/
theorem updateProductScore_spec (db : DB) (pid : Nat) :
    ∀ p ∈ (updateProductScore db pid).db.products, p.id = pid →
      p.total_score = specProductScore db.reviews pid ∧
      List.Sorted (· ≤ ·) p.reviews_ids ∧
      List.Perm p.reviews_ids
        ((db.reviews.filter (fun r => r.product_id == pid)).map Review.id) := by
  intro p hp hpid
  have havg := updateProductScore_avg db pid
  unfold updateProductScore at hp havg
  simp only at havg
  obtain ⟨q, hq, hqe⟩ := List.mem_map.mp hp
  by_cases hqid : (q.id == pid) = true
  · rw [if_pos hqid] at hqe
    subst hqe
    refine ⟨havg, ?_, ?_⟩
    · exact List.sorted_insertionSort (· ≤ ·) _
    · exact List.perm_insertionSort (· ≤ ·) _
  · rw [if_neg hqid] at hqe
    subst hqe
    exact absurd hpid (by simpa using hqid)

/-- C2: after a successful review create, update or delete, every stored row
of the owning product carries the spec-side aggregate score (the mean of the
current review scores rounded at the second decimal, zero when none) and the
ascending list of the current review ids, already in the state the response is
sent from; and inserting reviews scored 4 and 5 yields score 4.50 and the two
ids ascending. -/
theorem c2_score_recompute (db : DB) (b : ReviewBody) (id : Int) (bu : ReviewUpdateBody) :
    ((createReview db b).status = 201 →
      ∀ p, p ∈ (createReview db b).db.products → p.id = b.productId →
        p.total_score = specProductScore (createReview db b).db.reviews b.productId ∧
        List.Sorted (· ≤ ·) p.reviews_ids ∧
        List.Perm p.reviews_ids (((createReview db b).db.reviews.filter
          (fun r => r.product_id == b.productId)).map Review.id)) ∧
    ((updateReview db id bu).1 = 200 →
      ∃ r0 ∈ db.reviews, (r0.id : Int) = id ∧
        ∀ p, p ∈ ((updateReview db id bu).2).products → p.id = r0.product_id →
          p.total_score = specProductScore ((updateReview db id bu).2).reviews r0.product_id ∧
          List.Sorted (· ≤ ·) p.reviews_ids ∧
          List.Perm p.reviews_ids ((((updateReview db id bu).2).reviews.filter
            (fun r => r.product_id == r0.product_id)).map Review.id)) ∧
    ((deleteReview db id).status = 200 →
      ∃ r0 ∈ db.reviews, (r0.id : Int) = id ∧
        ∀ p, p ∈ (deleteReview db id).db.products → p.id = r0.product_id →
          p.total_score = specProductScore (deleteReview db id).db.reviews r0.product_id ∧
          List.Sorted (· ≤ ·) p.reviews_ids ∧
          List.Perm p.reviews_ids (((deleteReview db id).db.reviews.filter
            (fun r => r.product_id == r0.product_id)).map Review.id)) ∧
    (∀ p, p ∈ exDb2.products → p.id = 1 →
      p.total_score = (4.5 : ℚ) ∧ p.reviews_ids = [1, 2]) := by
  refine ⟨?_, ?_, ?_, by with_unfolding_all decide⟩
  · -- create
    intro hst
    cases hcu : db.users.find? (fun u => u.id == b.userId) with
    | none => rw [createReview] at hst; simp [hcu] at hst
    | some u =>
      cases hcp : db.products.find? (fun p => p.id == b.productId) with
      | none => rw [createReview] at hst; simp [hcu, hcp] at hst
      | some pp =>
        cases hcr : db.reviews.find?
            (fun r => r.user_id == b.userId && r.product_id == b.productId) with
        | some r1 => rw [createReview] at hst; simp [hcu, hcp, hcr] at hst
        | none =>
          intro p hp hpid
          simp only [createReview, hcu, hcp, hcr] at hp ⊢
          rw [updateProductScore_reviews]
          exact updateProductScore_spec _ b.productId p hp hpid
  · -- update
    intro hst
    cases hf : db.reviews.find? (fun r => (r.id : Int) == id) with
    | none => rw [updateReview] at hst; simp [hf] at hst
    | some r0 =>
      have hr0mem : r0 ∈ db.reviews := List.mem_of_find?_eq_some hf
      have hr0id : (r0.id : Int) = id := by simpa using List.find?_some hf
      refine ⟨r0, hr0mem, hr0id, ?_⟩
      by_cases hnd : (bu.score.isNone && bu.content.isNone) = true
      · rw [updateReview] at hst; simp [hf, hnd] at hst
      · have hgid : (fun r : Review =>
            (((if (r.id : Int) == id then applyReviewUpdate bu r else r).id : Int) == id)) =
            (fun r : Review => ((r.id : Int) == id)) := by
          funext r
          by_cases hr : ((r.id : Int) == id) = true <;>
            simp [hr, applyReviewUpdate_id]
        have hfm : (db.reviews.map (fun r =>
            if (r.id : Int) == id then applyReviewUpdate bu r else r)).find?
              (fun r => (r.id : Int) == id) =
            some (if (r0.id : Int) == id then applyReviewUpdate bu r0 else r0) := by
          rw [List.find?_map]
          have : ((fun r : Review => ((r.id : Int) == id)) ∘ (fun r =>
              if (r.id : Int) == id then applyReviewUpdate bu r else r)) =
              (fun r : Review => ((r.id : Int) == id)) := by
            funext r
            by_cases hr : ((r.id : Int) == id) = true <;>
              simp [Function.comp, hr, applyReviewUpdate_id]
          rw [this, hf]
          rfl
        have hr0beq : ((r0.id : Int) == id) = true := by simpa using hr0id
        intro p hp hpid
        simp only [updateReview, hf, hnd, Bool.false_eq_true, if_false, hfm,
          hr0beq, if_true, applyReviewUpdate_product_id] at hp ⊢
        rw [updateProductScore_reviews]
        exact updateProductScore_spec _ r0.product_id p hp hpid
  · -- delete
    intro hst
    cases hf : db.reviews.find? (fun r => (r.id : Int) == id) with
    | none => rw [deleteReview] at hst; simp [hf] at hst
    | some r0 =>
      have hr0mem : r0 ∈ db.reviews := List.mem_of_find?_eq_some hf
      have hr0id : (r0.id : Int) = id := by simpa using List.find?_some hf
      refine ⟨r0, hr0mem, hr0id, ?_⟩
      intro p hp hpid
      simp only [deleteReview, hf] at hp ⊢
      rw [updateProductScore_reviews]
      exact updateProductScore_spec _ r0.product_id p hp hpid

/-- C2 witness: the create part applied at the fixture where user 2 adds the
score-5 review of product 1 on top of the score-4 review. -/
theorem c2_score_recompute_witness :
    (createReview exDb1 { userId := 2, productId := 1, score := 5, content := "great" }).status = 201 ∧
    exProd1 ∈ (createReview exDb1
      { userId := 2, productId := 1, score := 5, content := "great" }).db.products ∧
    exProd1.total_score = specProductScore (createReview exDb1
      { userId := 2, productId := 1, score := 5, content := "great" }).db.reviews 1 ∧
    List.Sorted (· ≤ ·) exProd1.reviews_ids ∧
    List.Perm exProd1.reviews_ids (((createReview exDb1
      { userId := 2, productId := 1, score := 5, content := "great" }).db.reviews.filter
        (fun r => r.product_id == 1)).map Review.id) := by
  have h := (c2_score_recompute exDb1
    { userId := 2, productId := 1, score := 5, content := "great" } 0
    { score := none, content := none }).1
  have hst : (createReview exDb1
      { userId := 2, productId := 1, score := 5, content := "great" }).status = 201 := by
    with_unfolding_all decide
  have hmem : exProd1 ∈ (createReview exDb1
      { userId := 2, productId := 1, score := 5, content := "great" }).db.products := by
    with_unfolding_all decide
  obtain ⟨h1, h2, h3⟩ := h hst exProd1 hmem (by decide)
  exact ⟨hst, hmem, h1, h2, h3⟩

/-- Helper: the standard bracketing of N by multiples of L around the ceiling
of N / L. -/
theorem ceil_div_mul_bounds (N L : ℤ) (hL : 0 < L) :
    (⌈(N : ℚ) / (L : ℚ)⌉ - 1) * L < N ∧ N ≤ ⌈(N : ℚ) / (L : ℚ)⌉ * L := by
  have hLq : (0 : ℚ) < (L : ℚ) := by exact_mod_cast hL
  constructor
  · have h1 : (⌈(N : ℚ) / (L : ℚ)⌉ : ℚ) - 1 < (N : ℚ) / (L : ℚ) := by
      have := Int.ceil_lt_add_one ((N : ℚ) / (L : ℚ))
      linarith
    have h2 : ((⌈(N : ℚ) / (L : ℚ)⌉ - 1 : ℤ) : ℚ) * (L : ℚ) < (N : ℚ) := by
      have hstep : ((⌈(N : ℚ) / (L : ℚ)⌉ - 1 : ℤ) : ℚ) * (L : ℚ) <
          ((N : ℚ) / (L : ℚ)) * (L : ℚ) := by
        have : ((⌈(N : ℚ) / (L : ℚ)⌉ - 1 : ℤ) : ℚ) = (⌈(N : ℚ) / (L : ℚ)⌉ : ℚ) - 1 := by
          push_cast; ring
        rw [this]
        exact mul_lt_mul_of_pos_right h1 hLq
      rwa [div_mul_cancel₀ _ (ne_of_gt hLq)] at hstep
    exact_mod_cast h2
  · have h1 : (N : ℚ) / (L : ℚ) ≤ (⌈(N : ℚ) / (L : ℚ)⌉ : ℚ) := Int.le_ceil _
    have h2 : (N : ℚ) ≤ (⌈(N : ℚ) / (L : ℚ)⌉ : ℚ) * (L : ℚ) := by
      have hstep : ((N : ℚ) / (L : ℚ)) * (L : ℚ) ≤ (⌈(N : ℚ) / (L : ℚ)⌉ : ℚ) * (L : ℚ) :=
        mul_le_mul_of_nonneg_right h1 hLq.le
      rwa [div_mul_cancel₀ _ (ne_of_gt hLq)] at hstep
    exact_mod_cast h2

/-- C3: for every list endpoint, page defaults to 1 and limit to 10 when the
query value is absent or non-numeric; the metadata satisfies total = full row
count, totalPages = ceil(total / limit), hasNext = (page < totalPages) and
hasPrev = (page > 1); the returned rows are the slice starting at offset
(page - 1) * limit; the last page holds the remainder rows with
hasNext = false; and page 1 of a resource with more rows than the page size
has hasNext = true and hasPrev = false. -/
theorem c3_pagination {α : Type} (rows : List α) (pageQ limitQ : Option Int) :
    ((pageQ = none → (listEndpoint rows pageQ limitQ).2.page = 1) ∧
     (limitQ = none → (listEndpoint rows pageQ limitQ).2.limit = 10)) ∧
    ((listEndpoint rows pageQ limitQ).2.total = rows.length ∧
     (listEndpoint rows pageQ limitQ).2.totalPages =
       ⌈(rows.length : ℚ) / ((jsOrDefault limitQ 10 : ℤ) : ℚ)⌉ ∧
     (listEndpoint rows pageQ limitQ).2.hasNext =
       decide ((listEndpoint rows pageQ limitQ).2.page <
               (listEndpoint rows pageQ limitQ).2.totalPages) ∧
     (listEndpoint rows pageQ limitQ).2.hasPrev =
       decide (1 < (listEndpoint rows pageQ limitQ).2.page)) ∧
    (∀ i : Nat, (listEndpoint rows pageQ limitQ).1[i]? =
       if i < (jsOrDefault limitQ 10).toNat then
         rows[(((jsOrDefault pageQ 1 - 1) * jsOrDefault limitQ 10).toNat + i)]?
       else none) ∧
    (0 < jsOrDefault limitQ 10 → rows ≠ [] →
     jsOrDefault pageQ 1 = ⌈(rows.length : ℚ) / ((jsOrDefault limitQ 10 : ℤ) : ℚ)⌉ →
     (listEndpoint rows pageQ limitQ).1.length =
       rows.length - ((jsOrDefault pageQ 1 - 1) * jsOrDefault limitQ 10).toNat ∧
     0 < (listEndpoint rows pageQ limitQ).1.length ∧
     (listEndpoint rows pageQ limitQ).2.hasNext = false) ∧
    (0 < jsOrDefault limitQ 10 → jsOrDefault pageQ 1 = 1 →
     jsOrDefault limitQ 10 < (rows.length : Int) →
     (listEndpoint rows pageQ limitQ).2.hasNext = true ∧
     (listEndpoint rows pageQ limitQ).2.hasPrev = false) := by
  refine ⟨⟨?_, ?_⟩, ⟨?_, ?_, ?_, ?_⟩, ?_, ?_, ?_⟩
  · intro h; simp [listEndpoint, h, jsOrDefault]
  · intro h; simp [listEndpoint, h, jsOrDefault]
  · simp [listEndpoint]
  · simp [listEndpoint, jsCeil_eq_ceil]
  · simp [listEndpoint]
  · simp [listEndpoint]
  · intro i
    simp only [listEndpoint]
    rw [List.getElem?_take, List.getElem?_drop]
  · intro hL hrows hpage
    have hN : 0 < rows.length := List.length_pos.mpr hrows
    have hb := ceil_div_mul_bounds (rows.length : ℤ) (jsOrDefault limitQ 10) hL
    have htp : 0 < ⌈((rows.length : ℤ) : ℚ) / ((jsOrDefault limitQ 10 : ℤ) : ℚ)⌉ := by
      refine Int.ceil_pos.mpr ?_
      refine div_pos ?_ ?_
      · exact_mod_cast hN
      · exact_mod_cast hL
    have hcast : ((rows.length : ℤ) : ℚ) = ((rows.length : ℕ) : ℚ) := by push_cast; rfl
    rw [hcast] at hb htp
    have hmul : (⌈((rows.length : ℕ) : ℚ) / ((jsOrDefault limitQ 10 : ℤ) : ℚ)⌉) *
        (jsOrDefault limitQ 10) =
        (⌈((rows.length : ℕ) : ℚ) / ((jsOrDefault limitQ 10 : ℤ) : ℚ)⌉ - 1) *
        (jsOrDefault limitQ 10) + (jsOrDefault limitQ 10) := by ring
    refine ⟨?_, ?_, ?_⟩
    · simp only [listEndpoint, List.length_take, List.length_drop, hpage]
      omega
    · simp only [listEndpoint, List.length_take, List.length_drop, hpage]
      omega
    · simp only [listEndpoint, hpage, jsCeil_eq_ceil, hcast]
      simp
  · intro hL hpage hlt
    have htp : 1 < ⌈((rows.length : ℕ) : ℚ) / ((jsOrDefault limitQ 10 : ℤ) : ℚ)⌉ := by
      rw [Int.lt_ceil]
      have h0 : (((1 : ℤ)) : ℚ) = 1 := by norm_num
      rw [h0, one_lt_div (by exact_mod_cast hL : (0 : ℚ) < ((jsOrDefault limitQ 10 : ℤ) : ℚ))]
      exact_mod_cast hlt
    constructor
    · simp only [listEndpoint, hpage, jsCeil_eq_ceil]
      simpa using htp
    · simp [listEndpoint, hpage]

/-- C3 witness: the statement applied to a 25-row resource at page size 10,
on its last page 3 and on page 1. -/
theorem c3_pagination_witness :
    (listEndpoint (List.range 25) (some 3) none).1.length =
      25 - ((((3 : ℤ) - 1) * 10).toNat) ∧
    (listEndpoint (List.range 25) (some 3) none).2.hasNext = false ∧
    (listEndpoint (List.range 25) (some 1) (some 10)).2.hasNext = true ∧
    (listEndpoint (List.range 25) (some 1) (some 10)).2.hasPrev = false := by
  have h1 := (c3_pagination (List.range 25) (some 3) none).2.2.2.1
  have h2 := (c3_pagination (List.range 25) (some 1) (some 10)).2.2.2.2
  have hceil : ⌈((List.range 25).length : ℚ) / ((jsOrDefault none 10 : ℤ) : ℚ)⌉ = 3 := by
    rw [show ((List.range 25).length : ℚ) = 25 by simp]
    rw [show ((jsOrDefault none 10 : ℤ) : ℚ) = 10 by rfl]
    rw [Int.ceil_eq_iff]
    norm_num
  obtain ⟨ha, _, hb⟩ := h1 (by norm_num [jsOrDefault]) (by simp)
    (by rw [hceil]; rfl)
  obtain ⟨hc, hd⟩ := h2 (by norm_num [jsOrDefault]) rfl (by norm_num [jsOrDefault])
  refine ⟨?_, hb, hc, hd⟩
  simpa [jsOrDefault] using ha

/-- C10: hashPassword is a pure function of the password string alone (the
unsalted SHA-512 hex digest of its UTF-8 bytes): the row stored by user
creation carries exactly hashPassword of the submitted password, a successful
password update stores the same function of the new password, and two stored
users created from the same password carry identical hashes. -/
theorem c10_hash_deterministic (db : DB) (b : UserBody) :
    (∀ u, (createUser db b).payload = some u →
      u.password_hash = hashPassword b.password) ∧
    (∀ (db2 : DB) (b2 : UserBody) u u2, b.password = b2.password →
      (createUser db b).payload = some u → (createUser db2 b2).payload = some u2 →
      u.password_hash = u2.password_hash) ∧
    (∀ (id : Int) (bu : UserUpdateBody) (pw : String), bu.password = some pw →
      (updateUser db id bu).1 = 200 →
      ∀ u ∈ ((updateUser db id bu).2).users, (u.id : Int) = id →
        u.password_hash = hashPassword pw) := by
  have hcreate : ∀ (db' : DB) (b' : UserBody) u, (createUser db' b').payload = some u →
      u.password_hash = hashPassword b'.password := by
    intro db' b' u hu
    simp only [createUser] at hu
    split at hu
    · exact absurd hu (by simp)
    · have h := (Option.some.injEq _ _).mp hu
      rw [← h]
  refine ⟨hcreate db b, ?_, ?_⟩
  · intro db2 b2 u u2 hpw hu hu2
    rw [hcreate db b u hu, hcreate db2 b2 u2 hu2, hpw]
  · intro id bu pw hpw hst u hu huid
    cases hf : db.users.find? (fun u => (u.id : Int) == id) with
    | none => simp [updateUser, hf] at hst
    | some u0 =>
      by_cases hconf : ((bu.username.isSome || bu.email.isSome) &&
          decide ((db.users.filter (fun u =>
            (bu.username.elim false (fun n => u.username == n) ||
             bu.email.elim false (fun e => u.email == e)) &&
            (u.id : Int) != id)).length > 0)) = true
      · simp only [updateUser, hf, hconf, if_true] at hst
        exact absurd hst (by norm_num)
      · have hne : (bu.username.isNone && bu.email.isNone && bu.password.isNone) = false := by
          rw [hpw]
          simp
        simp only [updateUser, hf, hconf, hne, Bool.false_eq_true, if_false] at hu
        obtain ⟨q, hq, hqe⟩ := List.mem_map.mp hu
        by_cases hqid : ((q.id : Int) == id) = true
        · rw [if_pos hqid] at hqe
          rw [← hqe]
          rcases hbu : bu.username with _ | n <;> rcases hbe : bu.email with _ | e <;>
            simp [applyUserUpdate, hbu, hbe, hpw]
        · rw [if_neg hqid] at hqe
          rw [← hqe] at huid
          exact absurd huid (by simpa using hqid)

/-- C10 witness: two users created from the password secret123 carry the same
stored hash, which is hashPassword of that password. -/
theorem c10_hash_deterministic_witness :
    ({ id := 3, username := "carol", email := "carol@mail.io",
       password_hash := hashPassword "secret123" } : User).password_hash =
      ({ id := 3, username := "dave", email := "dave@mail.io",
         password_hash := hashPassword "secret123" } : User).password_hash ∧
    ({ id := 3, username := "carol", email := "carol@mail.io",
       password_hash := hashPassword "secret123" } : User).password_hash =
      hashPassword "secret123" := by
  have h := c10_hash_deterministic exDb0
    { username := "carol", email := "carol@mail.io", password := "secret123" }
  refine ⟨h.2.1 exDb0 { username := "dave", email := "dave@mail.io", password := "secret123" }
      _ _ rfl ?_ ?_, h.1 _ ?_⟩ <;> with_unfolding_all rfl

end Marketplace
